import Mathlib

/-!
Shallow embedding of the garden-guardian-mate layout/placement subsystem:
the Position Store, Bed Registry, Placement Engine and Capacity Calculator,
translated from `src/components/GardenLayout.tsx`, `src/components/GardenBedManager.tsx`
(src/unnamed/part_003), the `Index` page (src/unnamed/part_006) and
`src/pages/Stats.tsx`.  JavaScript numbers are modelled as rationals (ℚ),
string keys and ids as `String`, and fallible JSON parsing as `Option`.
-/

namespace GardenGuardian

/-- Plant status union type from PlantCard.tsx: 'healthy' | 'needs-care' | 'critical'. -/
inductive PlantStatus where
  | healthy
  | needsCare
  | critical
deriving DecidableEq, Repr

/-- Comment record from PlantCard.tsx (src/unnamed/part_005). -/
structure Comment where
  id : String
  text : String
  timestamp : String
deriving DecidableEq, Repr

/-- Plant record from PlantCard.tsx (src/unnamed/part_005): timestamps are ISO
strings, harvest weight and space requirement are JS numbers (ℚ here),
`lastHarvest` is optional. -/
structure Plant where
  id : String
  name : String
  type : String
  plantedDate : String
  lastWatered : String
  lastFertilized : String
  status : PlantStatus
  location : String
  totalHarvest : ℚ
  lastHarvest : Option String
  spaceRequired : ℚ
  comments : List Comment
deriving DecidableEq, Repr

/-- Bed type union from GardenBedManager.tsx: 'raised' | 'ground' | 'container'. -/
inductive BedType where
  | raised
  | ground
  | container
deriving DecidableEq, Repr

/-- GardenBed record from GardenBedManager.tsx (src/unnamed/part_003):
width/height in meters, (x, y) integer grid position with (-1, -1) as the
"unplaced" sentinel; all four are JS numbers, modelled as ℚ. -/
structure GardenBed where
  id : String
  name : String
  width : ℚ
  height : ℚ
  x : ℚ
  y : ℚ
  type : BedType
deriving DecidableEq, Repr

/-- PlantPosition association record from GardenLayout.tsx: fractional (x, y)
inside the bed rectangle. -/
structure PlantPosition where
  plantId : String
  bedId : String
  x : ℚ
  y : ℚ
deriving DecidableEq, Repr

/-- Garden boundary settings persisted under the 'garden-settings' key
(GardenLayout.tsx). -/
structure GardenSettings where
  width : ℚ
  height : ℚ
  showBoundaries : Bool
deriving DecidableEq, Repr

/-! ## Position Store operations (GardenLayout.tsx) -/

/-- GardenLayout.tsx `handlePlantDrop` (lines 185–190): drop any prior
position of the plant (filter on `pos.plantId !== plantId`), then append the
new entry. -/
def handlePlantDrop (positions : List PlantPosition) (plantId bedId : String)
    (x y : ℚ) : List PlantPosition :=
  (positions.filter (fun pos => decide (pos.plantId ≠ plantId))) ++
    [⟨plantId, bedId, x, y⟩]

/-- GardenLayout.tsx `removeBed` (lines 179–183), effect on the bed list:
`beds.filter(bed => bed.id !== bedId)`. -/
def removeBedBeds (beds : List GardenBed) (bedId : String) : List GardenBed :=
  beds.filter (fun bed => decide (bed.id ≠ bedId))

/-- GardenLayout.tsx `removeBed` (lines 179–183), effect on the position
store: `prev.filter(pos => pos.bedId !== bedId)`. -/
def removeBedPositions (positions : List PlantPosition) (bedId : String) :
    List PlantPosition :=
  positions.filter (fun pos => decide (pos.bedId ≠ bedId))

/-- Index page `deletePlant` (src/unnamed/part_006, lines 195–205), confirmed
branch: the plant is filtered out of the plant list via
`prev.filter(p => p.id !== id)`.  The position store (GardenLayout component
state persisted under `garden-plant-positions-*`) is not touched by this
operation — no statement in `deletePlant` updates it — so it is passed
through unchanged. -/
def deletePlant (plants : List Plant) (positions : List PlantPosition)
    (id : String) : List Plant × List PlantPosition :=
  (plants.filter (fun p => decide (p.id ≠ id)), positions)

/-- GardenLayout.tsx `handleRemoveZoneDrop` (lines 339–352), effect on the
position store: `prev.filter(pos => pos.plantId !== data.plantId)`. -/
def handleRemoveZoneDrop (positions : List PlantPosition) (plantId : String) :
    List PlantPosition :=
  positions.filter (fun pos => decide (pos.plantId ≠ plantId))

/-! ## Placement Engine: click-to-place bed clamping (GardenLayout.tsx) -/

/-- GardenLayout.tsx `handleBedDrag` (lines 192–198): the bed with the given
id gets `x := max 0 newX`, `y := max 0 newY`; every other bed is mapped to
itself. -/
def handleBedDrag (beds : List GardenBed) (bedId : String) (newX newY : ℚ) :
    List GardenBed :=
  beds.map (fun bed =>
    if bed.id = bedId then { bed with x := max 0 newX, y := max 0 newY }
    else bed)

/-- One dimension of the stored coordinate produced by click-to-place bed
placement, GardenLayout.tsx `handleGardenClick` (lines 260–268) followed by
`handleBedDrag` (line 195).  `gridX` is the rounded grid coordinate
`Math.round(rawX)`; the handler takes `newX = Math.max(0, gridX)`, clamps by
`Math.min(newX, Math.max(0, gardenW - bedW))`, and `handleBedDrag` stores
`Math.max(0, clampedX)`.  The y dimension is identical with `gardenH` and the
bed's height. -/
def placeBedCoord (gardenW bedW gridX : ℚ) : ℚ :=
  max 0 (min (max 0 gridX) (max 0 (gardenW - bedW)))

/-! ## Capacity Calculator -/

/-- GardenLayout.tsx (lines 850–856): positions referencing the bed, joined
with the plant list via `plants.find(p => p.id === pos.plantId)`, entries
whose plant no longer exists dropped by `.filter(item => item.plant)`. -/
def bedPlantsOf (plants : List Plant) (positions : List PlantPosition)
    (bedId : String) : List Plant :=
  (positions.filter (fun pos => decide (pos.bedId = bedId))).filterMap
    (fun pos => plants.find? (fun p => p.id == pos.plantId))

/-- GardenLayout.tsx (line 858): `bedPlants.reduce((sum, item) => sum +
item.plant.spaceRequired, 0)`. -/
def totalUsedSpace (plants : List Plant) (positions : List PlantPosition)
    (bedId : String) : ℚ :=
  (bedPlantsOf plants positions bedId).foldl (fun sum p => sum + p.spaceRequired) 0

/-- GardenLayout.tsx (lines 859–860): `totalUsedSpace > totalSpace` where
`totalSpace = bed.width * bed.height`. -/
def isOvercrowded (plants : List Plant) (positions : List PlantPosition)
    (bed : GardenBed) : Bool :=
  decide (totalUsedSpace plants positions bed.id > bed.width * bed.height)

/-- GardenBedManager.tsx `getPlantsByBed` (src/unnamed/part_003, lines
115–117): `plants.filter(plant => plant.location === bedId)`. -/
def getPlantsByBed (plants : List Plant) (bedId : String) : List Plant :=
  plants.filter (fun plant => decide (plant.location = bedId))

/-- JavaScript division of two finite numbers: non-finite (NaN when 0/0,
±Infinity otherwise) exactly when the denominator is 0; a non-finite result is
modelled as `none`. -/
def jsDiv (a b : ℚ) : Option ℚ :=
  if b = 0 then none else some (a / b)

/-- Result record of GardenBedManager.tsx `getBedUtilization`. -/
structure BedUtilization where
  usedSpace : ℚ
  totalSpace : ℚ
  percentage : Option ℚ
deriving DecidableEq, Repr

/-- GardenBedManager.tsx `getBedUtilization` (src/unnamed/part_003, lines
119–124): `usedSpace = plantsInBed.reduce((sum, plant) => sum +
plant.spaceRequired, 0)`, `totalSpace = bed.width * bed.height`, and
`percentage = (usedSpace / totalSpace) * 100` — the division is written
without any zero guard, so the percentage is non-finite (`none`) whenever
`totalSpace = 0` (multiplying a non-finite JS number by 100 keeps it
non-finite). -/
def getBedUtilization (plants : List Plant) (bed : GardenBed) : BedUtilization :=
  let plantsInBed := getPlantsByBed plants bed.id
  let usedSpace := plantsInBed.foldl (fun sum plant => sum + plant.spaceRequired) 0
  let totalSpace := bed.width * bed.height
  ⟨usedSpace, totalSpace, (jsDiv usedSpace totalSpace).map (· * 100)⟩

/-- Stats.tsx `plantsInBeds` (lines 70–73): positions joined with the plant
list, null entries (deleted plants) dropped; each survivor carries the
position's bedId. -/
def statsPlantsInBeds (plants : List Plant) (positions : List PlantPosition) :
    List (Plant × String) :=
  positions.filterMap (fun pos =>
    (plants.find? (fun p => p.id == pos.plantId)).map (fun plant => (plant, pos.bedId)))

/-- Stats.tsx per-bed utilization (lines 90–92): `usedSpace` summed over
`plantsInBeds` entries whose bedId matches, and `utilization = totalSpace > 0
? (usedSpace / totalSpace) * 100 : 0` — here the division IS guarded. -/
def statsBedUtilization (plants : List Plant) (positions : List PlantPosition)
    (bed : GardenBed) : ℚ :=
  let bedPlants := (statsPlantsInBeds plants positions).filter
    (fun pb => decide (pb.2 = bed.id))
  let usedSpace := bedPlants.foldl (fun sum pb => sum + pb.1.spaceRequired) 0
  let totalSpace := bed.width * bed.height
  if totalSpace > 0 then (usedSpace / totalSpace) * 100 else 0

/-! ## Plant operations (Index page, src/unnamed/part_006) -/

/-- Index page `waterPlant` (lines 135–145): the plant whose id matches gets
`lastWatered := now` and `status := 'healthy'`; every other plant maps to
itself.  `now` models `new Date().toISOString()`. -/
def waterPlant (plants : List Plant) (id now : String) : List Plant :=
  plants.map (fun plant =>
    if plant.id = id then { plant with lastWatered := now, status := .healthy }
    else plant)

/-- Index page `fertilizePlant` (lines 147–157): identical to `waterPlant`
but for `lastFertilized`. -/
def fertilizePlant (plants : List Plant) (id now : String) : List Plant :=
  plants.map (fun plant =>
    if plant.id = id then { plant with lastFertilized := now, status := .healthy }
    else plant)

/-- Index page `duplicatePlant` (lines 238–254): spread of the original with
`id` regenerated (`Date.now().toString()`, modelled by `freshId`), `name`
user-supplied, `plantedDate` reset to today, `totalHarvest` reset to 0,
`lastHarvest` cleared, `comments` reset to empty. -/
def duplicatePlant (original : Plant) (newName freshId today : String) : Plant :=
  { original with
      id := freshId
      name := newName
      plantedDate := today
      totalHarvest := 0
      lastHarvest := none
      comments := [] }

/-- Index page `duplicatePlant` (line 249): the duplicate is appended to the
plant list; the original entry is untouched. -/
def duplicatePlantInto (plants : List Plant) (original : Plant)
    (newName freshId today : String) : List Plant :=
  plants ++ [duplicatePlant original newName freshId today]

/-! ## Storage load with parse-or-default (GardenLayout.tsx lines 38–111)

A stored slot is modelled as `Option (Option α)`: `none` = the key is absent
(`localStorage.getItem` returned null), `some none` = the key is present but
`JSON.parse` throws on its value, `some (some v)` = the value parses to `v`. -/

/-- The hardcoded default beds of `loadGardenDataFromStorage`
(GardenLayout.tsx lines 53–72 and 87–106). -/
def defaultBeds : List GardenBed :=
  [⟨"bed-1", "Main Vegetable Bed", 3, 2, 1, 1, .raised⟩,
   ⟨"bed-2", "Herb Garden", 1, 1, 5, 1, .container⟩]

/-- The hardcoded default boundary settings (GardenLayout.tsx lines 47 and
108). -/
def defaultSettings : GardenSettings := ⟨10, 8, true⟩

/-- GardenLayout.tsx `loadGardenDataFromStorage` (lines 38–111).  Inside the
try block each present value is parsed in order (beds, positions, settings);
a throw anywhere lands in the catch block, which returns the default beds, an
empty position list and the default settings.  If no parse throws, each
absent key independently falls back to its default (default beds, `[]`,
`{10, 8, true}`) while present values are returned as parsed.  The function
is total: every storage content yields a result. -/
def loadGardenDataFromStorage
    (savedBeds : Option (Option (List GardenBed)))
    (savedPositions : Option (Option (List PlantPosition)))
    (savedSettings : Option (Option GardenSettings)) :
    List GardenBed × List PlantPosition × GardenSettings :=
  if savedBeds = some none ∨ savedPositions = some none ∨ savedSettings = some none then
    (defaultBeds, [], defaultSettings)
  else
    ((savedBeds.bind id).getD defaultBeds,
     (savedPositions.bind id).getD [],
     (savedSettings.bind id).getD defaultSettings)

/-! ## JSON serialization of the Bed Registry

The save effect (GardenLayout.tsx lines 143–149) is
`localStorage.setItem('garden-beds', JSON.stringify(beds))` and the load reads
it back with `JSON.parse(savedBeds) as GardenBed[]` (line 50).  The JSON value
produced by stringify is modelled explicitly; `JSON.parse` of that exact text
reproduces the value, and the unchecked `as GardenBed[]` cast reads its
fields. -/

/-- JSON values (no non-finite numbers appear when stringifying bed records,
whose fields are strings and finite numbers). -/
inductive Json where
  | null : Json
  | bool : Bool → Json
  | num : ℚ → Json
  | str : String → Json
  | arr : List Json → Json
  | obj : List (String × Json) → Json

/-- Serialization of a bed type to its union-string form. -/
def BedType.toStr : BedType → String
  | .raised => "raised"
  | .ground => "ground"
  | .container => "container"

/-- Reading a bed-type string back; any other string is not a valid BedType. -/
def BedType.ofStr (s : String) : Option BedType :=
  if s = "raised" then some .raised
  else if s = "ground" then some .ground
  else if s = "container" then some .container
  else none

/-- The JSON object `JSON.stringify` produces for one GardenBed record (field
order as declared in GardenBedManager.tsx). -/
def bedToJson (bed : GardenBed) : Json :=
  .obj [("id", .str bed.id), ("name", .str bed.name),
        ("width", .num bed.width), ("height", .num bed.height),
        ("x", .num bed.x), ("y", .num bed.y),
        ("type", .str bed.type.toStr)]

/-- Reading the fields of a parsed bed object (the effect of using the value
behind the unchecked `as GardenBed[]` cast). -/
def jsonToBed : Json → Option GardenBed
  | .obj [("id", .str i), ("name", .str n),
          ("width", .num w), ("height", .num h),
          ("x", .num x), ("y", .num y),
          ("type", .str t)] =>
      (BedType.ofStr t).map (fun ty => ⟨i, n, w, h, x, y, ty⟩)
  | _ => none

/-- `JSON.stringify(beds)`: the bed registry serializes to a JSON array. -/
def encodeBeds (beds : List GardenBed) : Json :=
  .arr (beds.map bedToJson)

/-- Element-wise decoding of a parsed JSON array back to a bed list. -/
def decodeBedList : List Json → Option (List GardenBed)
  | [] => some []
  | j :: js =>
    match jsonToBed j, decodeBedList js with
    | some b, some bs => some (b :: bs)
    | _, _ => none

/-- `JSON.parse` of a stringified bed registry, read as `GardenBed[]`. -/
def decodeBeds : Json → Option (List GardenBed)
  | .arr js => decodeBedList js
  | _ => none

/-! ## Bulk bed creation (GardenBedManager.tsx handleSubmit, lines 59–113) -/

/-- The grid cell scanned at linear index `n`: the while loop in
`handleSubmit` increments x and wraps to the next row when x exceeds 8, so the
scan visits cells (x, y) with x ∈ 0..8 in row-major order; cell (x, y) has
index y*9 + x. -/
def cellOfIdx (n : ℕ) : ℚ × ℚ :=
  ((n % 9 : ℕ), (n / 9 : ℕ))

/-- The occupancy test `existingPositions.some(pos => pos.x === x && pos.y
=== y)` at the cell of linear index `n`. -/
def cellOccupied (occ : List (ℚ × ℚ)) (n : ℕ) : Bool :=
  occ.any (fun pos => decide (pos.1 = (cellOfIdx n).1 ∧ pos.2 = (cellOfIdx n).2))

/-- The while loop of `handleSubmit` (lines 73–79): starting at index `n`,
advance past occupied cells.  Consecutive indices denote distinct cells, so
among `occ.length + 1` consecutive cells at least one is free; that fuel
therefore always suffices to reach the first free cell. -/
def findFreeFrom (occ : List (ℚ × ℚ)) : ℕ → ℕ → ℕ
  | 0, n => n
  | fuel + 1, n => if cellOccupied occ n then findFreeFrom occ fuel (n + 1) else n

/-- One onAddBed request produced by `handleSubmit`. -/
structure BedRequest where
  name : String
  width : ℚ
  height : ℚ
  type : BedType
  x : ℚ
  y : ℚ
deriving DecidableEq, Repr

/-- The creation loop of `handleSubmit` (lines 70–102): for each i the next
free cell is found from the current start index, recorded into the occupancy
list, and the start index for the next bed becomes the placed index + 1
(`startX = x + 1` with wrap at 8 is exactly +1 on the linear index).  `i` is
the 0-based loop counter, `quantity` the overall quantity (used for the
`quantity > 1` naming test on line 85). -/
def bulkGo (name : String) (w h : ℚ) (ty : BedType) (quantity : ℕ) :
    List (ℚ × ℚ) → ℕ → ℕ → ℕ → List BedRequest
  | _, _, _, 0 => []
  | occ, start, i, k + 1 =>
    let n := findFreeFrom occ (occ.length + 1) start
    let cell := cellOfIdx n
    let bedName := if quantity > 1 then name ++ " " ++ toString (i + 1) else name
    ⟨bedName, w, h, ty, cell.1, cell.2⟩ ::
      bulkGo name w h ty quantity (occ ++ [cell]) (n + 1) (i + 1) k

/-- GardenBedManager.tsx `handleSubmit` (lines 59–113): the full list of
onAddBed requests of one (bulk) submission, starting from the occupancy list
`beds.map(bed => ({x: bed.x, y: bed.y}))` and start position (0, 0). -/
def bulkRequests (beds : List GardenBed) (name : String) (w h : ℚ)
    (ty : BedType) (quantity : ℕ) : List BedRequest :=
  bulkGo name w h ty quantity (beds.map (fun bed => (bed.x, bed.y))) 0 0 quantity

/-- GardenLayout.tsx `addBed` (lines 169–177): the request is spread into a
new bed, then `x` and `y` are overridden with the -1 "unplaced" sentinel
(the override comes after the spread, so coordinates supplied by the caller
are discarded).  `freshId` models the generated
`bed-${Date.now()}-${Math.random()...}` id. -/
def addBed (beds : List GardenBed) (req : BedRequest) (freshId : String) :
    List GardenBed :=
  beds ++ [⟨freshId, req.name, req.width, req.height, -1, -1, req.type⟩]

/-- A bulk submission as executed through GardenLayout.tsx: each request of
`handleSubmit` is passed to `addBed` in order, with a list of generated ids. -/
def bulkCreate (beds : List GardenBed) (name : String) (w h : ℚ)
    (ty : BedType) (quantity : ℕ) (ids : List String) : List GardenBed :=
  ((bulkRequests beds name w h ty quantity).zip ids).foldl
    (fun bs ri => addBed bs ri.1 ri.2) beds

/-! ## Concrete sample data used as inputs for witnesses and counterexamples -/

/-- A concrete plant (mirrors the default "Cherry Tomatoes" plant of the
Index page, src/unnamed/part_006 lines 47–60). -/
def samplePlant : Plant :=
  ⟨"p1", "Cherry Tomatoes", "Vegetable", "2024-07-15", "2024-08-02",
   "2024-07-20", .needsCare, "Garden Bed A", 5/2, some "2024-07-30", 3/2, []⟩

/-- A concrete plant with space requirement 3 for the capacity example. -/
def tomatoPlant : Plant :=
  ⟨"pa", "Tomato A", "Vegetable", "2024-07-15", "2024-08-02", "2024-07-20",
   .healthy, "Garden Bed A", 0, none, 3, []⟩

/-- A second concrete plant with space requirement 3. -/
def pepperPlant : Plant :=
  ⟨"pb", "Pepper B", "Vegetable", "2024-07-15", "2024-08-02", "2024-07-20",
   .healthy, "Garden Bed A", 0, none, 3, []⟩

/-- A concrete 2×2 bed (area 4) for the capacity example. -/
def sampleBed : GardenBed := ⟨"bedC", "Test Bed", 2, 2, 0, 0, .raised⟩

/-- A concrete bed with width 0, hence total space 0. -/
def zeroAreaBed : GardenBed := ⟨"b0", "Empty Bed", 0, 2, 0, 0, .ground⟩

/-! ## Theorems -/

/-- Filtering for a plant id after first filtering it away yields nothing. -/
theorem filter_eq_after_filter_ne (ps : List PlantPosition) (P : String) :
    (ps.filter (fun pos => decide (pos.plantId ≠ P))).filter
      (fun pos => decide (pos.plantId = P)) = [] := by
  induction ps with
  | nil => rfl
  | cons a t ih =>
      by_cases h : a.plantId = P <;> simp [List.filter_cons, h, ih]

/-- Filtering for a different plant id Q is unaffected by first filtering
away P. -/
theorem filter_other_after_filter_ne (ps : List PlantPosition) (P Q : String)
    (hQ : Q ≠ P) :
    (ps.filter (fun pos => decide (pos.plantId ≠ P))).filter
      (fun pos => decide (pos.plantId = Q)) =
      ps.filter (fun pos => decide (pos.plantId = Q)) := by
  induction ps with
  | nil => rfl
  | cons a t ih =>
      have hPQ : ¬ P = Q := fun e => hQ e.symm
      by_cases h : a.plantId = P
      · simpa [List.filter_cons, h, hPQ] using ih
      · by_cases h2 : a.plantId = Q <;>
          simpa [List.filter_cons, h, h2, hPQ, hQ] using ih

/-- C1: after `handlePlantDrop P B x y`, the position store contains exactly
one PlantPosition for P — equal to (P, B, x, y) — and the positions of every
other plant id Q are exactly the ones held before; in particular a repeated
placement replaces rather than duplicates. -/
theorem c1_handlePlantDrop_exactly_one (ps : List PlantPosition) (P B : String)
    (x y : ℚ) :
    (handlePlantDrop ps P B x y).filter (fun pos => decide (pos.plantId = P)) =
      [⟨P, B, x, y⟩] ∧
    ∀ Q, Q ≠ P →
      (handlePlantDrop ps P B x y).filter (fun pos => decide (pos.plantId = Q)) =
        ps.filter (fun pos => decide (pos.plantId = Q)) := by
  constructor
  · unfold handlePlantDrop
    rw [List.filter_append, filter_eq_after_filter_ne]
    simp
  · intro Q hQ
    unfold handlePlantDrop
    rw [List.filter_append, filter_other_after_filter_ne ps P Q hQ]
    have : ¬ (P = Q) := fun e => hQ e.symm
    simp [this]

/-- C1 witness: the theorem at a concrete store, plant, bed and fraction. -/
theorem c1_witness :
    (handlePlantDrop [⟨"p2", "bed-1", 0, 0⟩] "p1" "bed-2" (1/2) (1/3)).filter
        (fun pos => decide (pos.plantId = "p1")) = [⟨"p1", "bed-2", 1/2, 1/3⟩] ∧
    (handlePlantDrop [⟨"p2", "bed-1", 0, 0⟩] "p1" "bed-2" (1/2) (1/3)).filter
        (fun pos => decide (pos.plantId = "p2")) =
      [(⟨"p2", "bed-1", 0, 0⟩ : PlantPosition)].filter
        (fun pos => decide (pos.plantId = "p2")) :=
  ⟨(c1_handlePlantDrop_exactly_one [⟨"p2", "bed-1", 0, 0⟩] "p1" "bed-2" (1/2) (1/3)).1,
   (c1_handlePlantDrop_exactly_one [⟨"p2", "bed-1", 0, 0⟩] "p1" "bed-2" (1/2) (1/3)).2
     "p2" (by decide)⟩

/-- C2 counterexample: deleting plant "p1" (confirmed) removes it from the
plant list, yet the position store — untouched by `deletePlant` — still holds
a PlantPosition with plantId "p1"; the claimed cascade for plant deletion does
not happen. -/
theorem c2_counterexample :
    (deletePlant [samplePlant] [⟨"p1", "bed-1", 1/2, 1/2⟩] "p1").1 = [] ∧
    ¬ (∀ pos ∈ (deletePlant [samplePlant] [⟨"p1", "bed-1", 1/2, 1/2⟩] "p1").2,
        pos.plantId ≠ "p1") := by
  constructor
  · decide
  · decide

/-- C2 (amended): removing a bed cascades — afterwards no position references
the bed and the bed itself is gone — while deleting a plant only filters the
plant list: the position store is returned unchanged, so a position with the
deleted plant's id may remain (consumers filter such dangling entries
defensively). -/
theorem c2_remove_cascade_amended (beds : List GardenBed)
    (positions : List PlantPosition) (plants : List Plant) (B P : String) :
    (∀ pos ∈ removeBedPositions positions B, pos.bedId ≠ B) ∧
    (∀ bed ∈ removeBedBeds beds B, bed.id ≠ B) ∧
    (∀ p ∈ (deletePlant plants positions P).1, p.id ≠ P) ∧
    (deletePlant plants positions P).2 = positions := by
  refine ⟨?_, ?_, ?_, rfl⟩
  · intro pos hpos
    have := (List.mem_filter.mp hpos).2
    simpa using this
  · intro bed hbed
    have := (List.mem_filter.mp hbed).2
    simpa using this
  · intro p hp
    have := (List.mem_filter.mp hp).2
    simpa using this

/-- C2 witness: the amended theorem at a concrete store. -/
theorem c2_witness :
    (∀ pos ∈ removeBedPositions [⟨"p1", "bed-1", 0, 0⟩] "bed-1",
        pos.bedId ≠ "bed-1") ∧
    (∀ bed ∈ removeBedBeds defaultBeds "bed-1", bed.id ≠ "bed-1") ∧
    (∀ p ∈ (deletePlant [samplePlant] [⟨"p1", "bed-1", 0, 0⟩] "p1").1,
        p.id ≠ "p1") ∧
    (deletePlant [samplePlant] [⟨"p1", "bed-1", 0, 0⟩] "p1").2 =
      [⟨"p1", "bed-1", 0, 0⟩] :=
  c2_remove_cascade_amended defaultBeds [⟨"p1", "bed-1", 0, 0⟩] [samplePlant]
    "bed-1" "p1"

/-- C3: bulk-creating 2 beds named "Bed" on an empty registry.  `handleSubmit`
does allocate distinct grid cells (0, 0) and (1, 0) and passes them in its
onAddBed requests — but `addBed` in GardenLayout.tsx overrides both
coordinates with the (-1, -1) sentinel, so the two created beds (correctly
named "Bed 1" and "Bed 2") end up at identical coordinates (-1, -1): the grid
coordinates of the new beds are NOT pairwise distinct in the stored registry. -/
theorem c3_addBed_discards_allocated_coordinates :
    bulkRequests [] "Bed" 2 2 .raised 2 =
      [⟨"Bed 1", 2, 2, .raised, 0, 0⟩, ⟨"Bed 2", 2, 2, .raised, 1, 0⟩] ∧
    bulkCreate [] "Bed" 2 2 .raised 2 ["idA", "idB"] =
      [⟨"idA", "Bed 1", 2, 2, -1, -1, .raised⟩,
       ⟨"idB", "Bed 2", 2, 2, -1, -1, .raised⟩] ∧
    ((bulkCreate [] "Bed" 2 2 .raised 2 ["idA", "idB"]).map
        (fun bed => (bed.x, bed.y)) = [(-1, -1), (-1, -1)]) ∧
    ¬ ((bulkCreate [] "Bed" 2 2 .raised 2 ["idA", "idB"]).map
        (fun bed => (bed.x, bed.y))).Pairwise (· ≠ ·) := by
  exact ⟨by decide, by decide, by decide, by decide⟩

/-- C4: the click-to-place clamp of bed coordinates.  Placing a bed at a grid
coordinate x strictly beyond gardenWidth − bedWidth stores the same coordinate
as placing it at exactly gardenWidth − bedWidth, and re-applying the placement
transform to an already-stored coordinate leaves it unchanged (idempotence
under re-clamping); y behaves identically with gardenHeight − bedHeight. -/
theorem c4_clamp_idempotent (g bw x : ℚ) (h : x > g - bw) :
    placeBedCoord g bw x = placeBedCoord g bw (g - bw) ∧
    ∀ z, placeBedCoord g bw (placeBedCoord g bw z) = placeBedCoord g bw z := by
  constructor
  · simp only [placeBedCoord, max_def, min_def]
    split_ifs <;> linarith
  · intro z
    simp only [placeBedCoord, max_def, min_def]
    split_ifs <;> linarith

/-- C4 witness: garden width 10, bed width 3, grid coordinate 12 > 10 − 3. -/
theorem c4_witness :
    placeBedCoord 10 3 12 = placeBedCoord 10 3 (10 - 3) ∧
    placeBedCoord 10 3 (placeBedCoord 10 3 12) = placeBedCoord 10 3 12 :=
  ⟨(c4_clamp_idempotent 10 3 12 (by norm_num)).1,
   (c4_clamp_idempotent 10 3 12 (by norm_num)).2 12⟩

/-- C5: a bed is flagged overcrowded exactly when the used space (sum of
spaceRequired over the plants positioned in it) strictly exceeds the total
space width × height; the 2×2 bed holding two positioned plants of space 3
each reports used-space 6, total-space 4, overcrowded; and placement is never
rejected — the dropped position is always in the store afterwards, whatever
the bed's occupancy. -/
theorem c5_overcrowded_strict :
    (∀ plants positions bed, isOvercrowded plants positions bed = true ↔
        totalUsedSpace plants positions bed.id > bed.width * bed.height) ∧
    totalUsedSpace [tomatoPlant, pepperPlant]
        [⟨"pa", "bedC", 0, 0⟩, ⟨"pb", "bedC", 1/2, 1/2⟩] "bedC" = 6 ∧
    sampleBed.width * sampleBed.height = 4 ∧
    isOvercrowded [tomatoPlant, pepperPlant]
        [⟨"pa", "bedC", 0, 0⟩, ⟨"pb", "bedC", 1/2, 1/2⟩] sampleBed = true ∧
    (∀ positions plantId bedId x y, (⟨plantId, bedId, x, y⟩ : PlantPosition) ∈
        handlePlantDrop positions plantId bedId x y) := by
  refine ⟨?_, ?_, by norm_num [sampleBed], ?_, ?_⟩
  · intro plants positions bed
    simp [isOvercrowded]
  · simp +decide [totalUsedSpace, bedPlantsOf, tomatoPlant, pepperPlant,
      List.filterMap_cons, List.find?_cons_of_pos, List.find?_cons_of_neg]
    norm_num
  · simp +decide [isOvercrowded, totalUsedSpace, bedPlantsOf, tomatoPlant,
      pepperPlant, sampleBed, List.filterMap_cons, List.find?_cons_of_pos,
      List.find?_cons_of_neg]
    norm_num
  · intro positions plantId bedId x y
    simp [handlePlantDrop]

/-- C6 counterexample: for a bed with width 0 (total space 0) the
GardenBedManager utilization percentage is the unguarded quotient 0/0 — a
non-finite JS number, not the value 0 the claim asserts. -/
theorem c6_counterexample :
    (getBedUtilization [] zeroAreaBed).totalSpace = 0 ∧
    (getBedUtilization [] zeroAreaBed).percentage = none ∧
    (getBedUtilization [] zeroAreaBed).percentage ≠ some 0 := by
  refine ⟨by norm_num [getBedUtilization, zeroAreaBed], ?_, ?_⟩ <;>
    simp [getBedUtilization, getPlantsByBed, jsDiv, zeroAreaBed]

/-- C6 (amended): the division-by-zero guard exists only in the Stats page
computation — `totalSpace > 0 ? used/total*100 : 0` yields 0 for a zero-area
bed — while GardenBedManager's `getBedUtilization` divides unguarded, so its
percentage is non-finite (`none`), not 0, whenever width × height = 0. -/
theorem c6_utilization_guard_amended (plants : List Plant)
    (positions : List PlantPosition) (bed : GardenBed)
    (h : bed.width * bed.height = 0) :
    statsBedUtilization plants positions bed = 0 ∧
    (getBedUtilization plants bed).percentage = none := by
  constructor
  · simp [statsBedUtilization, h]
  · simp [getBedUtilization, jsDiv, h]

/-- C6 witness: the amended theorem at the zero-area bed. -/
theorem c6_witness :
    statsBedUtilization [] [] zeroAreaBed = 0 ∧
    (getBedUtilization [] zeroAreaBed).percentage = none :=
  c6_utilization_guard_amended [] [] zeroAreaBed (by norm_num [zeroAreaBed])

/-- C7: duplicating a plant copies type, location, status and spaceRequired,
gives the duplicate the supplied name, the current date as plantedDate, a
harvest total of 0 and no comments; provided the freshly generated id differs
from the source's id (the code derives it from the current time), the
duplicate's id is distinct; and the duplicate is appended, leaving the source
entry in the list unchanged. -/
theorem c7_duplicate_fresh_instance (plants : List Plant) (original : Plant)
    (newName freshId today : String) (h : freshId ≠ original.id) :
    (duplicatePlant original newName freshId today).type = original.type ∧
    (duplicatePlant original newName freshId today).location = original.location ∧
    (duplicatePlant original newName freshId today).status = original.status ∧
    (duplicatePlant original newName freshId today).spaceRequired =
      original.spaceRequired ∧
    (duplicatePlant original newName freshId today).id ≠ original.id ∧
    (duplicatePlant original newName freshId today).name = newName ∧
    (duplicatePlant original newName freshId today).plantedDate = today ∧
    (duplicatePlant original newName freshId today).totalHarvest = 0 ∧
    (duplicatePlant original newName freshId today).comments = [] ∧
    duplicatePlantInto plants original newName freshId today =
      plants ++ [duplicatePlant original newName freshId today] ∧
    (original ∈ plants →
      original ∈ duplicatePlantInto plants original newName freshId today) := by
  refine ⟨rfl, rfl, rfl, rfl, h, rfl, rfl, rfl, rfl, rfl, ?_⟩
  intro hm
  simp [duplicatePlantInto, hm]

/-- C7 witness: duplicating the sample plant (harvest 5/2) as "Tomato Copy"
with a fresh id. -/
theorem c7_witness :
    (duplicatePlant samplePlant "Tomato Copy" "999" "2024-10-12").type =
      samplePlant.type ∧
    (duplicatePlant samplePlant "Tomato Copy" "999" "2024-10-12").location =
      samplePlant.location ∧
    (duplicatePlant samplePlant "Tomato Copy" "999" "2024-10-12").status =
      samplePlant.status ∧
    (duplicatePlant samplePlant "Tomato Copy" "999" "2024-10-12").spaceRequired =
      samplePlant.spaceRequired ∧
    (duplicatePlant samplePlant "Tomato Copy" "999" "2024-10-12").id ≠
      samplePlant.id ∧
    (duplicatePlant samplePlant "Tomato Copy" "999" "2024-10-12").name =
      "Tomato Copy" ∧
    (duplicatePlant samplePlant "Tomato Copy" "999" "2024-10-12").plantedDate =
      "2024-10-12" ∧
    (duplicatePlant samplePlant "Tomato Copy" "999" "2024-10-12").totalHarvest = 0 ∧
    (duplicatePlant samplePlant "Tomato Copy" "999" "2024-10-12").comments = [] ∧
    duplicatePlantInto [samplePlant] samplePlant "Tomato Copy" "999" "2024-10-12" =
      [samplePlant] ++ [duplicatePlant samplePlant "Tomato Copy" "999" "2024-10-12"] ∧
    (samplePlant ∈ [samplePlant] →
      samplePlant ∈
        duplicatePlantInto [samplePlant] samplePlant "Tomato Copy" "999" "2024-10-12") :=
  c7_duplicate_fresh_instance [samplePlant] samplePlant "Tomato Copy" "999"
    "2024-10-12" (by decide)

/-- C8 counterexample: with the beds key absent but a well-formed stored
position list present, the load keeps the stored positions (and would keep
stored settings) — it does not return the full default collection with an
empty position list as the claim states. -/
theorem c8_counterexample :
    loadGardenDataFromStorage none (some (some [⟨"1", "bed-1", 0, 0⟩])) none =
      (defaultBeds, [⟨"1", "bed-1", 0, 0⟩], defaultSettings) ∧
    (loadGardenDataFromStorage none (some (some [⟨"1", "bed-1", 0, 0⟩]))
        none).2.1 ≠ [] := by
  exact ⟨by decide, by decide⟩

/-- C8 (amended): the load is a total function; if any present stored value
is malformed JSON the whole result is the hardcoded default collection (the
two example beds, an empty position list, boundary settings 10×8); if the
beds key is merely absent and no present value is malformed, only the beds
slot falls back to the two default beds while stored positions and settings
are kept (each absent key defaults independently). -/
theorem c8_load_defaults_amended (sb : Option (Option (List GardenBed)))
    (sp : Option (Option (List PlantPosition)))
    (ss : Option (Option GardenSettings)) :
    ((sb = some none ∨ sp = some none ∨ ss = some none) →
       loadGardenDataFromStorage sb sp ss = (defaultBeds, [], defaultSettings)) ∧
    (sb = none → sp ≠ some none → ss ≠ some none →
       loadGardenDataFromStorage sb sp ss =
         (defaultBeds, (sp.bind id).getD [], (ss.bind id).getD defaultSettings)) := by
  constructor
  · intro h
    simp [loadGardenDataFromStorage, h]
  · intro hb hp hs
    have hcond : ¬ (sb = some none ∨ sp = some none ∨ ss = some none) := by
      rintro (h | h | h)
      · rw [hb] at h
        cases h
      · exact hp h
      · exact hs h
    rw [loadGardenDataFromStorage, if_neg hcond, hb]
    rfl

/-- C8 witness: the amended theorem at a concrete storage content (malformed
settings on the left; absent beds key with stored positions on the right). -/
theorem c8_witness :
    ((some (some defaultBeds) = some (none : Option (List GardenBed)) ∨
        (none : Option (Option (List PlantPosition))) = some none ∨
        some (none : Option GardenSettings) = some none) →
      loadGardenDataFromStorage (some (some defaultBeds)) none (some none) =
        (defaultBeds, [], defaultSettings)) ∧
    ((some (some defaultBeds) : Option (Option (List GardenBed))) = none →
      (none : Option (Option (List PlantPosition))) ≠ some none →
      (some (none : Option GardenSettings)) ≠ some none →
      loadGardenDataFromStorage (some (some defaultBeds)) none (some none) =
        (defaultBeds, ((none : Option (Option (List PlantPosition))).bind id).getD [],
         ((some (none : Option GardenSettings)).bind id).getD defaultSettings)) :=
  c8_load_defaults_amended (some (some defaultBeds)) none (some none)

/-- Decoding the stringified form of one bed record restores the record. -/
theorem jsonToBed_bedToJson (bed : GardenBed) :
    jsonToBed (bedToJson bed) = some bed := by
  cases bed with
  | mk i n w h x y ty => cases ty <;> rfl

/-- Decoding the stringified forms of a list of bed records restores the
list. -/
theorem decodeBedList_map (beds : List GardenBed) :
    decodeBedList (beds.map bedToJson) = some beds := by
  induction beds with
  | nil => rfl
  | cons b t ih => simp [decodeBedList, jsonToBed_bedToJson, ih]

/-- C9: round-trip of the Bed Registry through storage — `JSON.stringify`
then `JSON.parse` restores the same bed list (same ids, names, positions,
dimensions and types, in the same order), and feeding the parsed value to the
load operation returns exactly that list as the bed registry. -/
theorem c9_bed_registry_roundtrip (beds : List GardenBed) :
    decodeBeds (encodeBeds beds) = some beds ∧
    loadGardenDataFromStorage (some (decodeBeds (encodeBeds beds))) none none =
      (beds, [], defaultSettings) := by
  have hdec : decodeBeds (encodeBeds beds) = some beds := by
    simp [decodeBeds, encodeBeds, decodeBedList_map]
  refine ⟨hdec, ?_⟩
  rw [hdec]
  simp [loadGardenDataFromStorage]

/-- Lifting a pointwise property over a map to `List.Forall₂`. -/
theorem forall2_map_self {α β : Type} (f : α → β) (R : α → β → Prop)
    (l : List α) (h : ∀ a ∈ l, R a (f a)) : List.Forall₂ R l (l.map f) := by
  induction l with
  | nil => exact List.Forall₂.nil
  | cons a t ih =>
      exact List.Forall₂.cons (h a (by simp)) (ih (fun b hb => h b (by simp [hb])))

/-- C10: watering maps each plant of the list to itself unless its id
matches, in which case only `lastWatered` and `status` change (`status`
becomes healthy whatever it was before — needs-care and critical included,
there is no condition on the prior status); every other field and every other
plant are unchanged, and the list keeps its length and order.  Fertilizing is
identical for `lastFertilized`. -/
theorem c10_water_fertilize_frame (plants : List Plant) (id now : String) :
    List.Forall₂ (fun p q =>
        (p.id = id → q = { p with lastWatered := now, status := .healthy }) ∧
        (p.id ≠ id → q = p))
      plants (waterPlant plants id now) ∧
    List.Forall₂ (fun p q =>
        (p.id = id → q = { p with lastFertilized := now, status := .healthy }) ∧
        (p.id ≠ id → q = p))
      plants (fertilizePlant plants id now) := by
  constructor
  · refine forall2_map_self _ _ plants (fun p _ => ?_)
    constructor
    · intro h
      simp [h]
    · intro h
      simp [h]
  · refine forall2_map_self _ _ plants (fun p _ => ?_)
    constructor
    · intro h
      simp [h]
    · intro h
      simp [h]

/-- C10 witness: the frame theorem at a one-plant list whose plant has status
needs-care and matches the watered id. -/
theorem c10_witness :
    List.Forall₂ (fun p q =>
        (p.id = "p1" → q = { p with lastWatered := "2024-08-05", status := .healthy }) ∧
        (p.id ≠ "p1" → q = p))
      [samplePlant] (waterPlant [samplePlant] "p1" "2024-08-05") ∧
    List.Forall₂ (fun p q =>
        (p.id = "p1" → q = { p with lastFertilized := "2024-08-05", status := .healthy }) ∧
        (p.id ≠ "p1" → q = p))
      [samplePlant] (fertilizePlant [samplePlant] "p1" "2024-08-05") :=
  c10_water_fertilize_frame [samplePlant] "p1" "2024-08-05"

end GardenGuardian
